import Mathlib

/-!
# Verification of the guitar-app gesture/sound engine

Shallow embedding of the core logic of the guitar-app repository
(`src/apps/guitar-app/src/app/state/useGuitarEngine.ts` and the gesture
classifier of the `GuitarCanvas` component), together with theorems
settling the specification claims about it.

Modelling conventions:
* JavaScript numbers are modelled as rationals (`ℚ`); every constant of
  the source is exactly representable, and none of the verified
  properties depends on floating-point rounding.
* JavaScript `Math.round` rounds half toward positive infinity; it is
  modelled by `jsRound q = ⌊q + 1/2⌋`.  `Math.floor` on an integer
  quotient is modelled by `Int.fdiv`.
* Audio frequencies in the source are always of the form
  `440 * 2 ^ ((m - 69) / 12)` for a (possibly fractional) midi value
  `m : ℚ`.  That map is strictly monotone, hence injective, in `m`, so a
  frequency is represented by its exponent `m` (structure `LogFreq`);
  multiplying a frequency by a slide span `2 ^ (s / 12)` corresponds to
  adding `s` to the exponent, and dividing to subtracting it.  This
  keeps every definition executable.
* React state updates (`setStatus`, refs) are modelled by explicit state
  passing over an `EngineState` record; audio dispatch is modelled by
  returning the list of tone events the sound engine would schedule.
  The presentation-only `headline` string (built with `toFixed`
  formatting) and the raw `AudioContext` plumbing are not part of any
  claim and are omitted.
-/

/-- JavaScript `Math.round`: rounds half toward positive infinity. -/
def jsRound (q : ℚ) : ℤ := ⌊q + 1/2⌋

/-- Source helper `clamp(value, min, max)` of `useGuitarEngine.ts`:
`Math.min(max, Math.max(min, value))`.  The source's `NaN` guard cannot
arise over `ℚ`. -/
def clamp (value lo hi : ℚ) : ℚ := Min.min hi (Max.max lo value)

/-- Integer `Math.min`. -/
def zmin (a b : ℤ) : ℤ := if a ≤ b then a else b

/-- Integer `Math.max`. -/
def zmax (a b : ℤ) : ℤ := if a ≤ b then b else a

/-- Integer form of `clamp`, used where the source clamps a value that is
always an integer (rounded frets, string indices). -/
def clampZ (value lo hi : ℤ) : ℤ := zmin hi (zmax lo value)

/-- Source helper `clamp01` (present in both source files):
`Math.max(0, Math.min(1, value))`. -/
def clamp01 (value : ℚ) : ℚ := Max.max 0 (Min.min 1 value)

theorem zmin_eq_min (a b : ℤ) : zmin a b = Min.min a b := (min_def a b).symm

theorem zmax_eq_max (a b : ℤ) : zmax a b = Max.max a b := (max_def a b).symm

/-! ## Instrument model -/

/-- The six string identities of the instrument model. -/
inductive GuitarStringId
  | highE | B | G | D | A | lowE
deriving DecidableEq, Fintype, Repr

/-- One entry of `GUITAR_STRINGS`: id, display name, open-string label,
open-string frequency, open-string midi number, top-to-bottom order. -/
structure GuitarStringDefinition where
  id : GuitarStringId
  name : String
  label : String
  frequency : ℚ
  midi : ℤ
  order : ℕ
deriving DecidableEq, Repr

/-- The `GUITAR_STRINGS` table of `useGuitarEngine.ts`. -/
def GUITAR_STRINGS : List GuitarStringDefinition :=
  [ ⟨.highE, "High E", "E4", 32963/100, 64, 0⟩,
    ⟨.B, "B", "B3", 24694/100, 59, 1⟩,
    ⟨.G, "G", "G3", 196, 55, 2⟩,
    ⟨.D, "D", "D3", 14683/100, 50, 3⟩,
    ⟨.A, "A", "A2", 110, 45, 4⟩,
    ⟨.lowE, "Low E", "E2", 8241/100, 40, 5⟩ ]

/-- Lookup into `GUITAR_STRINGS` by position; the default is never
reached because every index handed to it is clamped below 6. -/
def stringAt (index : ℕ) : GuitarStringDefinition :=
  GUITAR_STRINGS.getD index ⟨.highE, "", "", 0, 0, 0⟩

/-- Constant `STRING_SPACING_PX = 40`. -/
def STRING_SPACING_PX : ℚ := 40

/-- Constant `STRING_TOP_OFFSET_PX = 40`. -/
def STRING_TOP_OFFSET_PX : ℚ := 40

/-- Source `findStringIndexFromY`: `clamp(round((y - offset)/spacing), 0,
5)`.  The clamped value is an integer in `[0, 5]`, returned as `ℕ`. -/
def findStringIndexFromY (y : ℚ) : ℕ :=
  (clampZ (jsRound ((y - STRING_TOP_OFFSET_PX) / STRING_SPACING_PX)) 0 5).toNat

/-- Source `mapSpeedToVelocity`: `clamp(speed * 0.6, 0.25, 1)`. -/
def mapSpeedToVelocity (speed : ℚ) : ℚ := clamp (speed * (3/5)) (1/4) 1

/-- Source `mapTapDurationToVelocity`: `clamp(1 - durationMs / 350, 0.2,
0.9)`. -/
def mapTapDurationToVelocity (durationMs : ℚ) : ℚ :=
  clamp (1 - durationMs / 350) (1/5) (9/10)

/-- Source `mapDistanceToSlideSemitones`: `clamp(distance / 40, 1, 6)`. -/
def mapDistanceToSlideSemitones (distance : ℚ) : ℚ := clamp (distance / 40) 1 6

/-- Source constant `FRETBOARD_START_RATIO = 0.1` (shortened name). -/
def FRETBOARD_START : ℚ := 1/10

/-- Source constant `FRETBOARD_END_RATIO = 0.9` (shortened name). -/
def FRETBOARD_END : ℚ := 9/10

/-- Source constant `MAX_FRET = 12`. -/
def MAX_FRET : ℕ := 12

/-- Source constant `FRETBOARD_SPAN`. -/
def FRETBOARD_SPAN : ℚ := FRETBOARD_END - FRETBOARD_START

/-- Source `computeFretFromRelativeX`.  The source returns 0 when the
input is `null`/`undefined` or `NaN`; both cases are modelled by `none`
(`NaN` has no rational counterpart, and the source treats the two
identically in the same guard). -/
def computeFretFromRelativeX (relativeX : Option ℚ) : ℕ :=
  match relativeX with
  | none => 0
  | some x =>
    if FRETBOARD_SPAN ≤ 0 then 0
    else
      (clampZ (jsRound (clamp01 ((x - FRETBOARD_START) / FRETBOARD_SPAN) * (MAX_FRET : ℚ)))
        0 (MAX_FRET : ℤ)).toNat

/-! ## Musical mapping -/

/-- The `NOTE_NAMES` chromatic table (written in two halves; the value
is the source's twelve-name list from C to B). -/
def NOTE_NAMES : List String :=
  ["C", "C#", "D", "D#", "E", "F"] ++
    ["F#", "G", "G#", "A", "A#", "B"]

/-- A synthesis frequency, represented by its exponent: `LogFreq m`
stands for the number `440 * 2 ^ ((m - 69) / 12)` computed by the
source's `midiToFrequency`.  The representation is faithful because that
map is strictly monotone (hence injective) in `m`. -/
structure LogFreq where
  midiValue : ℚ
deriving DecidableEq, Repr

/-- Source `midiToFrequency`, in the `LogFreq` representation. -/
def midiToFrequency (midi : ℚ) : LogFreq := ⟨midi⟩

/-- Multiplication of a frequency by `Math.pow(2, semitones / 12)` (as in
`triggerSlide`), in the `LogFreq` representation: adds the span to the
exponent. -/
def scaleBySemitones (f : LogFreq) (semitones : ℚ) : LogFreq :=
  ⟨f.midiValue + semitones⟩

/-- Source `getPitchClass`: `((midi % 12) + 12) % 12` with JavaScript's
truncating `%`, modelled by `Int.tmod`. -/
def getPitchClass (midi : ℤ) : ℕ := (((midi.tmod 12) + 12).tmod 12).toNat

/-- Source `midiToNoteLabel`: chromatic name plus octave
`Math.floor(midi / 12) - 1` (floor division, `Int.fdiv`). -/
def midiToNoteLabel (midi : ℤ) : String :=
  NOTE_NAMES.getD (getPitchClass midi) "" ++ toString (midi.fdiv 12 - 1)

/-- Articulation of a pitch snapshot. -/
inductive Articulation
  | tap | slide
deriving DecidableEq, Repr

/-- Source `GuitarPitchSnapshot`. -/
structure GuitarPitchSnapshot where
  string : GuitarStringDefinition
  articulation : Articulation
  durationMs : Option ℚ
  fret : ℕ
  midi : ℤ
  label : String
  frequency : LogFreq
deriving DecidableEq, Repr

/-- Source `createPitchSnapshot`: clamps the fret to `[0, MAX_FRET]`,
then derives midi, label and frequency. -/
def createPitchSnapshot (stringDef : GuitarStringDefinition) (fret : ℤ)
    (articulation : Articulation) (durationMs : Option ℚ) : GuitarPitchSnapshot :=
  let clampedFret := (clampZ fret 0 (MAX_FRET : ℤ)).toNat
  let midi := stringDef.midi + clampedFret
  { string := stringDef
    articulation := articulation
    durationMs := durationMs
    fret := clampedFret
    midi := midi
    label := midiToNoteLabel midi
    frequency := midiToFrequency (midi : ℚ) }

/-- Horizontal slide direction. -/
inductive SlideDirection
  | left | right
deriving DecidableEq, Repr

/-- Vertical strum direction. -/
inductive StrumDirection
  | up | down
deriving DecidableEq, Repr

/-- Source `computeSlideTargetFret`:
`clamp(startFret + (right ? +1 : -1) * max(1, round(semitones)), 0, MAX_FRET)`. -/
def computeSlideTargetFret (startFret : ℤ) (direction : SlideDirection)
    (distance : ℚ) : ℕ :=
  let semitoneDelta := zmax 1 (jsRound (mapDistanceToSlideSemitones distance))
  let delta := if direction = .right then semitoneDelta else -semitoneDelta
  (clampZ (startFret + delta) 0 (MAX_FRET : ℤ)).toNat

/-! ## Chord recognizer -/

/-- Triad quality. -/
inductive ChordQuality
  | major | minor
deriving DecidableEq, Repr

/-- Display text of a quality, as interpolated into the source's chord
label. -/
def qualityText : ChordQuality → String
  | .major => "major"
  | .minor => "minor"

/-- One entry of `TRIAD_PATTERNS`. -/
structure TriadPattern where
  quality : ChordQuality
  intervals : List ℕ
deriving DecidableEq, Repr

/-- Source `TRIAD_PATTERNS`: major `{0,4,7}` before minor `{0,3,7}`. -/
def TRIAD_PATTERNS : List TriadPattern :=
  [⟨.major, [0, 4, 7]⟩, ⟨.minor, [0, 3, 7]⟩]

/-- Source `DetectedChord`. -/
structure DetectedChord where
  root : String
  quality : ChordQuality
  notes : List String
  intervals : List ℕ
  label : String
deriving DecidableEq, Repr

/-- A fretted state: the per-string held fret (`Record<GuitarStringId,
number>` in the source, with every key present). -/
def FrettedState := GuitarStringId → ℤ

/-- JavaScript `Array.from(new Set(xs))`: removes duplicates keeping the
first occurrence of each element, preserving insertion order. -/
def firstOccurrences (xs : List ℕ) : List ℕ :=
  xs.foldl (fun acc x => if x ∈ acc then acc else acc ++ [x]) []

/-- Insertion step of an ascending insertion sort. -/
def insertAsc (x : ℕ) : List ℕ → List ℕ
  | [] => [x]
  | y :: ys => if x ≤ y then x :: y :: ys else y :: insertAsc x ys

/-- JavaScript `array.sort((a, b) => a - b)` on naturals: ascending
sort. -/
def sortAsc (xs : List ℕ) : List ℕ := xs.foldr insertAsc []

/-- The per-string midi values computed at the top of
`detectChordFromFrets`: open midi plus fret clamped to `[0, MAX_FRET]`. -/
def frettedMidiValues (frettedState : FrettedState) : List ℤ :=
  GUITAR_STRINGS.map (fun stringDef =>
    stringDef.midi + clampZ (frettedState stringDef.id) 0 (MAX_FRET : ℤ))

/-- The distinct pitch classes of a fretted state, in first-occurrence
order (`Array.from(new Set(midiValues.map(getPitchClass)))`). -/
def frettedPitchClasses (frettedState : FrettedState) : List ℕ :=
  firstOccurrences ((frettedMidiValues frettedState).map getPitchClass)

/-- A chord candidate (root pitch class, matched pattern, the observed
interval list sorted ascending). -/
structure ChordCandidate where
  rootPitchClass : ℕ
  pattern : TriadPattern
  intervals : List ℕ
deriving DecidableEq, Repr

/-- A candidate together with its extra-interval count. -/
structure ScoredCandidate extends ChordCandidate where
  extraCount : ℕ
deriving DecidableEq, Repr

/-- The strict part of the source's comparator on scored candidates:
smaller extra-interval count first, major before minor on ties. -/
def scoredBefore (a b : ScoredCandidate) : Bool :=
  a.extraCount < b.extraCount ||
    (a.extraCount == b.extraCount &&
      match a.pattern.quality, b.pattern.quality with
      | .major, .minor => true
      | _, _ => false)

/-- Head of the stable sort by `scoredBefore`: the earliest minimal
element (JavaScript `Array.prototype.sort` is stable, so `sort(...)[0]`
is exactly this fold). -/
def pickBest (first : ScoredCandidate) (rest : List ScoredCandidate) : ScoredCandidate :=
  rest.foldl (fun best c => if scoredBefore c best then c else best) first

/-- The candidate list built by `detectChordFromFrets` for one candidate
root: the sorted observed interval list, filtered through the triad
patterns whose intervals are all present.  Over naturals,
`(pc - root + 12) % 12` of the source is `(pc + 12 - root) % 12` (both
arguments are below 12, so the sum never truncates). -/
def candidatesForRoot (pitchClasses : List ℕ) (rootPitchClass : ℕ) : List ChordCandidate :=
  let intervalList := firstOccurrences
    (pitchClasses.map (fun pitchClass => (pitchClass + 12 - rootPitchClass) % 12))
  let intervals := sortAsc intervalList
  (TRIAD_PATTERNS.filter (fun pattern =>
      pattern.intervals.all (fun interval => interval ∈ intervalList))).map
    (fun pattern => ⟨rootPitchClass, pattern, intervals⟩)

/-- Builds the `DetectedChord` record from the best candidate, as at the
end of `detectChordFromFrets`. -/
def buildDetectedChord (best : ScoredCandidate) : DetectedChord :=
  let rootName := NOTE_NAMES.getD best.rootPitchClass ("Root" ++ toString best.rootPitchClass)
  { root := rootName
    quality := best.pattern.quality
    notes := best.intervals.map (fun interval =>
      NOTE_NAMES.getD ((best.rootPitchClass + interval) % 12) "")
    intervals := best.intervals
    label := rootName ++ " " ++ qualityText best.pattern.quality }

/-- Source `detectChordFromFrets`. -/
def detectChordFromFrets (frettedState : FrettedState) : Option DetectedChord :=
  let pitchClasses := frettedPitchClasses frettedState
  if pitchClasses.length < 3 then none
  else
    let candidates := pitchClasses.flatMap (candidatesForRoot pitchClasses)
    if candidates.isEmpty then none
    else
      let scored := candidates.map (fun c =>
        { toChordCandidate := c
          extraCount := (c.intervals.filter (fun interval =>
            interval ≠ 0 ∧ interval ∉ c.pattern.intervals)).length })
      match scored with
      | [] => none
      | first :: rest => some (buildDetectedChord (pickBest first rest))

/-! ## Gesture classifier (GuitarCanvas) -/

/-- Constant `TAP_DURATION_MS = 200`. -/
def TAP_DURATION_MS : ℚ := 200

/-- Constant `TAP_MOVEMENT_PX = 12`. -/
def TAP_MOVEMENT_PX : ℚ := 12

/-- Constant `MIN_STRUM_DISTANCE = 120`. -/
def MIN_STRUM_DISTANCE : ℚ := 120

/-- Constant `MIN_SLIDE_DISTANCE = 80`. -/
def MIN_SLIDE_DISTANCE : ℚ := 80

/-- A surface-normalized position, both coordinates in `[0, 1]`. -/
structure NormalizedPosition where
  x : ℚ
  y : ℚ
deriving DecidableEq, Repr

/-- Payload of the `tap` variant of `RecognizedGesture`. -/
structure TapGesture where
  position : ℚ × ℚ
  duration : ℚ
  relativePosition : Option NormalizedPosition
deriving DecidableEq, Repr

/-- Payload of the `strum` variant of `RecognizedGesture`. -/
structure StrumGesture where
  direction : StrumDirection
  distance : ℚ
  speed : ℚ
  relativePosition : Option NormalizedPosition
deriving DecidableEq, Repr

/-- Payload of the `slide` variant of `RecognizedGesture`. -/
structure SlideGesture where
  direction : SlideDirection
  distance : ℚ
  speed : ℚ
  relativePosition : Option NormalizedPosition
deriving DecidableEq, Repr

/-- Source `RecognizedGesture` tagged union. -/
inductive RecognizedGesture
  | tap (g : TapGesture)
  | strum (g : StrumGesture)
  | slide (g : SlideGesture)
  | unknown (detail : String)
deriving DecidableEq, Repr

/-- The fields of `PanResponderGestureState` read by the classifier: net
displacement and net velocity. -/
structure PanGestureState where
  dx : ℚ
  dy : ℚ
  vx : ℚ
  vy : ℚ
deriving DecidableEq, Repr

/-- The fields of the native pointer event read by the classifier. -/
structure PointerEventInfo where
  locationX : ℚ
  locationY : ℚ
deriving DecidableEq, Repr

/-- A measured layout rectangle. -/
structure LayoutRectangle where
  x : ℚ
  y : ℚ
  width : ℚ
  height : ℚ
deriving DecidableEq, Repr

/-- Source `getRelativePosition` of `GuitarCanvas`. -/
def getRelativePosition (event : PointerEventInfo)
    (layout : Option LayoutRectangle) : Option NormalizedPosition :=
  match layout with
  | none => none
  | some l =>
    if l.width ≤ 0 ∨ l.height ≤ 0 then none
    else some ⟨clamp01 (event.locationX / l.width), clamp01 (event.locationY / l.height)⟩

/-- Source `handleInterpretation` of `GuitarCanvas`, as the pure
classification function: the elapsed `duration` (`Date.now() -
startTime` in the source) is an input, and the gesture passed to
`onGesture` is the return value. -/
def handleInterpretation (duration : ℚ) (gestureState : PanGestureState)
    (event : PointerEventInfo) (layout : Option LayoutRectangle) : RecognizedGesture :=
  let absDx := |gestureState.dx|
  let absDy := |gestureState.dy|
  let relativePosition := getRelativePosition event layout
  if duration ≤ TAP_DURATION_MS ∧ absDx ≤ TAP_MOVEMENT_PX ∧ absDy ≤ TAP_MOVEMENT_PX then
    .tap ⟨(event.locationX, event.locationY), duration, relativePosition⟩
  else if absDx < absDy ∧ MIN_STRUM_DISTANCE ≤ absDy then
    .strum ⟨if 0 < gestureState.dy then .down else .up, absDy,
      |gestureState.vy|, relativePosition⟩
  else if MIN_SLIDE_DISTANCE ≤ absDx then
    .slide ⟨if 0 < gestureState.dx then .right else .left, absDx,
      |gestureState.vx|, relativePosition⟩
  else
    .unknown "No matching gesture pattern detected"

/-! ## Synthesis dispatch (GuitarSoundEngine) -/

/-- One scheduled tone, i.e. one `playFrequency` call of
`GuitarSoundEngine`: frequency, sustain length before the release ramp,
peak gain, and start delay.  The fixed attack (0.0125 s) and release
(0.3 s) constants are common to every call and not modelled
separately. -/
structure ToneEvent where
  frequency : LogFreq
  durationSeconds : ℚ
  velocity : ℚ
  startDelaySeconds : ℚ
deriving DecidableEq, Repr

/-- The single tone scheduled by `triggerSlide`: its frequency ramps
linearly (when the device offers `linearRampToValueAtTime`) from
`startFrequency` to `targetFrequency` over `sustainSeconds`, then
decays. -/
structure SlideToneEvent where
  startFrequency : LogFreq
  targetFrequency : LogFreq
  sustainSeconds : ℚ
  velocity : ℚ
deriving DecidableEq, Repr

/-- Source `GuitarSoundEngine.triggerTap`.  The source clamps the index
with `clamp(stringIndex, 0, 5)`; over `ℕ` the lower clamp is vacuous. -/
def triggerTap (stringIndex : ℕ) (durationMs : ℚ) (fret : ℤ) : ToneEvent :=
  let clampedIndex := Nat.min stringIndex 5
  let stringDef := stringAt clampedIndex
  { frequency := midiToFrequency ((stringDef.midi + clampZ fret 0 (MAX_FRET : ℤ) : ℤ) : ℚ)
    durationSeconds := 45/100
    velocity := mapTapDurationToVelocity durationMs
    startDelaySeconds := 0 }

/-- The string order used by `triggerStrum`: table order for `down`, the
reverse for `up`. -/
def orderedStrumStrings (direction : StrumDirection) : List GuitarStringDefinition :=
  if direction = .down then GUITAR_STRINGS else GUITAR_STRINGS.reverse

/-- Source `GuitarSoundEngine.triggerStrum`: one tone per string at the
open-string midi, 0.6 s sustain, shared velocity, 25 ms stagger. -/
def triggerStrum (direction : StrumDirection) (speed : ℚ) : List ToneEvent :=
  (orderedStrumStrings direction).enum.map (fun entry =>
    { frequency := midiToFrequency (entry.2.midi : ℚ)
      durationSeconds := 3/5
      velocity := mapSpeedToVelocity speed
      startDelaySeconds := (entry.1 : ℚ) * (1/40) })

/-- Source `GuitarSoundEngine.triggerSlide`.  The target frequency is
the start frequency multiplied (for `right`) or divided (for `left`) by
`Math.pow(2, slideSemitones / 12)`; in the `LogFreq` representation this
adds or subtracts the span. -/
def triggerSlide (stringIndex : ℕ) (direction : SlideDirection)
    (distance speed : ℚ) (startFret : ℤ) : SlideToneEvent :=
  let clampedIndex := Nat.min stringIndex 5
  let baseString := stringAt clampedIndex
  let clampedFret := clampZ startFret 0 (MAX_FRET : ℤ)
  let slideSemitones := mapDistanceToSlideSemitones distance
  let startFrequency := midiToFrequency ((baseString.midi + clampedFret : ℤ) : ℚ)
  { startFrequency := startFrequency
    targetFrequency :=
      if direction = .right then scaleBySemitones startFrequency slideSemitones
      else scaleBySemitones startFrequency (-slideSemitones)
    sustainSeconds := clamp (distance / 180) (3/10) 1
    velocity := mapSpeedToVelocity speed }

/-- Audio dispatched toward the external tone device by one handler
invocation. -/
inductive AudioOut
  | tone (event : ToneEvent)
  | slideTone (event : SlideToneEvent)
deriving DecidableEq, Repr

/-! ## Session engine (useGuitarEngine) -/

/-- Source `StrumSnapshot`. -/
structure StrumSnapshot where
  direction : StrumDirection
  velocity : ℚ
  strings : List GuitarStringDefinition
deriving DecidableEq, Repr

/-- Source `SlideSnapshot`. -/
structure SlideSnapshot where
  direction : SlideDirection
  velocity : ℚ
  distance : ℚ
  string : GuitarStringDefinition
  startFret : ℕ
  targetFret : ℕ
deriving DecidableEq, Repr

/-- Source `GuitarEngineStatus`: optional TypeScript fields become
`Option`s, with `none` for `undefined`. -/
structure GuitarEngineStatus where
  lastGesture : Option RecognizedGesture
  message : Option String
  activeString : Option GuitarPitchSnapshot
  strum : Option StrumSnapshot
  slide : Option SlideSnapshot
  chord : Option DetectedChord
deriving DecidableEq, Repr

/-- Source `DemoNoteEvent`. -/
structure DemoNoteEvent where
  atMs : ℕ
  stringId : GuitarStringId
  fret : ℕ
  durationMs : ℕ
deriving DecidableEq, Repr

/-- Source `CLASSICAL_DEMO_SEQUENCE`. -/
def CLASSICAL_DEMO_SEQUENCE : List DemoNoteEvent :=
  [ ⟨0, .lowE, 0, 460⟩,
    ⟨260, .A, 2, 420⟩,
    ⟨520, .D, 2, 420⟩,
    ⟨780, .G, 0, 420⟩,
    ⟨1040, .B, 0, 420⟩,
    ⟨1300, .highE, 0, 460⟩,
    ⟨1560, .B, 0, 420⟩,
    ⟨1820, .G, 0, 420⟩,
    ⟨2080, .D, 2, 420⟩,
    ⟨2340, .A, 2, 420⟩,
    ⟨2600, .lowE, 0, 460⟩,
    ⟨2860, .B, 3, 420⟩,
    ⟨3120, .highE, 0, 420⟩,
    ⟨3380, .B, 2, 420⟩,
    ⟨3640, .highE, 0, 420⟩,
    ⟨3900, .B, 3, 420⟩,
    ⟨4160, .highE, 0, 480⟩ ]

/-- Source `CLASSICAL_DEMO_DURATION_MS`: the maximal event end time. -/
def CLASSICAL_DEMO_DURATION_MS : ℕ :=
  CLASSICAL_DEMO_SEQUENCE.foldl (fun acc event =>
    let endMs := event.atMs + event.durationMs
    if acc < endMs then endMs else acc) 0

/-- Source `DEMO_COMPLETION_DELAY_MS = 480`. -/
def DEMO_COMPLETION_DELAY_MS : ℕ := 480

/-- What a scheduled demo timer will do when it fires: play one authored
note, or finish the demo (the terminal callback). -/
inductive DemoTask
  | noteEvent (event : DemoNoteEvent)
  | completion
deriving DecidableEq, Repr

/-- The state owned by `useGuitarEngine`: the React state cells
(`gestureLog`, `status`, `isDemoPlaying`) and refs (`lastStringIndexRef`,
`lastFretRef`, `frettedStringsRef`, `demoTimeoutsRef`), plus the
`logLimit` configuration.  Each pending demo timer is recorded as its
delay paired with the task its callback performs.  The presentation-only
`headline` cell is omitted (see the header comment). -/
structure EngineState where
  logLimit : ℕ
  gestureLog : List RecognizedGesture
  status : GuitarEngineStatus
  isDemoPlaying : Bool
  lastStringIndex : Option ℕ
  lastFret : ℕ
  frettedStrings : FrettedState
  pendingDemo : List (ℕ × DemoTask)

/-- The hook's initial state for a given `logLimit` (default 5 in the
source). -/
def mkInitialState (logLimit : ℕ) : EngineState :=
  { logLimit := logLimit
    gestureLog := []
    status := { lastGesture := none, message := some "Waiting for gestures...",
                activeString := none, strum := none, slide := none, chord := none }
    isDemoPlaying := false
    lastStringIndex := none
    lastFret := 0
    frettedStrings := fun _ => 0
    pendingDemo := [] }

/-- The initial state with the default `logLimit = 5`. -/
def initialEngineState : EngineState := mkInitialState 5

/-- Point update of the `frettedStringsRef` record. -/
def updateFretted (f : FrettedState) (id : GuitarStringId) (fret : ℤ) : FrettedState :=
  fun key => if key = id then fret else f key

/-- Source `pushGestureToLog`: prepend and trim to `logLimit`. -/
def pushGestureToLog (s : EngineState) (gesture : RecognizedGesture) : EngineState :=
  { s with gestureLog := (gesture :: s.gestureLog).take s.logLimit }

/-- Source `captureTap`: maps the position to string and fret, derives
the snapshot, overwrites the last-touched refs and the fretted state,
replaces the status, and triggers the tap tone. -/
def captureTap (s : EngineState) (g : TapGesture) : EngineState × List AudioOut :=
  let stringIndex := findStringIndexFromY g.position.2
  let stringDef := stringAt stringIndex
  let fret := computeFretFromRelativeX (g.relativePosition.map (fun p => p.x))
  let snapshot := createPitchSnapshot stringDef (fret : ℤ) .tap (some g.duration)
  ({ s with
      lastStringIndex := some stringIndex
      lastFret := snapshot.fret
      frettedStrings := updateFretted s.frettedStrings stringDef.id (snapshot.fret : ℤ)
      status :=
        { lastGesture := some (.tap g)
          message := some ("Trigger " ++ snapshot.label)
          activeString := some snapshot
          strum := none
          slide := none
          chord := none } },
    [.tone (triggerTap stringIndex g.duration (snapshot.fret : ℤ))])

/-- Source `captureStrum`.  The source copies each string entry
(`{ ...entry }`); the copies are equal values, so the table itself is
stored. -/
def captureStrum (s : EngineState) (g : StrumGesture) : EngineState × List AudioOut :=
  let velocity := mapSpeedToVelocity g.speed
  let strings := GUITAR_STRINGS
  let chord := detectChordFromFrets s.frettedStrings
  ({ s with
      lastStringIndex := some (if g.direction = .down then GUITAR_STRINGS.length - 1 else 0)
      lastFret := 0
      status :=
        { lastGesture := some (.strum g)
          message := some (match chord with
            | some c => "Detected " ++ c.label ++ " chord"
            | none => (if g.direction = .down then "Downward" else "Upward") ++ " strum")
          activeString := none
          strum := some ⟨g.direction, velocity, strings⟩
          slide := none
          chord := chord } },
    (triggerStrum g.direction g.speed).map .tone)

/-- Source `captureSlide`: anchors on the last-touched string (middle
string `Math.floor(6 / 2) = 3` when none) and fret, computes the target
fret, and populates both `activeString` and `slide` in the status. -/
def captureSlide (s : EngineState) (g : SlideGesture) : EngineState × List AudioOut :=
  let stringIndex := s.lastStringIndex.getD (GUITAR_STRINGS.length / 2)
  let stringDef := stringAt stringIndex
  let velocity := mapSpeedToVelocity g.speed
  let startFret := s.lastFret
  let targetFret := computeSlideTargetFret (startFret : ℤ) g.direction g.distance
  let snapshot := createPitchSnapshot stringDef (targetFret : ℤ) .slide none
  ({ s with
      lastStringIndex := some stringIndex
      lastFret := snapshot.fret
      frettedStrings := updateFretted s.frettedStrings stringDef.id (snapshot.fret : ℤ)
      status :=
        { lastGesture := some (.slide g)
          message := some ((if g.direction = .right then "Forward" else "Backward") ++
            " slide to " ++ snapshot.label)
          activeString := some snapshot
          strum := none
          slide := some ⟨g.direction, velocity, g.distance, stringDef, startFret, targetFret⟩
          chord := none } },
    [.slideTone (triggerSlide stringIndex g.direction g.distance g.speed (startFret : ℤ))])

/-- The demo-interruption step at the top of `handleGesture`:
`clearDemoTimeouts()` plus `setIsDemoPlaying(false)`, touching nothing
else. -/
def cancelDemo (s : EngineState) : EngineState :=
  { s with pendingDemo := [], isDemoPlaying := false }

/-- Source `handleGesture`: cancels an active demo first, then logs the
gesture and dispatches to the per-kind handler (the `unknown` branch
sets every status field, so its `...current` spread carries nothing
over). -/
def handleGesture (s : EngineState) (gesture : RecognizedGesture) : EngineState × List AudioOut :=
  let s1 := if s.isDemoPlaying || decide (0 < s.pendingDemo.length) then cancelDemo s else s
  let s2 := pushGestureToLog s1 gesture
  match gesture with
  | .tap g => captureTap s2 g
  | .strum g => captureStrum s2 g
  | .slide g => captureSlide s2 g
  | .unknown detail =>
    ({ s2 with status :=
        { s2.status with
          lastGesture := some gesture
          message := some detail
          activeString := none
          strum := none
          slide := none
          chord := none } },
     [])

/-- The timer set scheduled by `playDemo`: one timer per authored event
at its offset, plus the terminal completion timer. -/
def demoSchedule : List (ℕ × DemoTask) :=
  CLASSICAL_DEMO_SEQUENCE.map (fun event => (event.atMs, DemoTask.noteEvent event)) ++
    [(CLASSICAL_DEMO_DURATION_MS + DEMO_COMPLETION_DELAY_MS, DemoTask.completion)]

/-- Source `playDemo`: a no-op while a demo is playing; otherwise clears
stale timers, marks the demo active, resets the status (the spread sets
every field), and schedules the full timer set. -/
def playDemo (s : EngineState) : EngineState :=
  if s.isDemoPlaying then s
  else
    { s with
        pendingDemo := demoSchedule
        isDemoPlaying := true
        status :=
          { s.status with
            message := some "Playing classical demo..."
            lastGesture := none
            activeString := none
            strum := none
            slide := none
            chord := none } }

/-- The body of a scheduled demo callback (the removal of the fired
timer's own handle from `demoTimeoutsRef` is scheduler bookkeeping,
performed by the `scheduleDemoTimeout` wrapper before the body runs, and
not modelled here).  A note callback performs the tap-style mapping and
dispatch; the terminal callback clears the demo flag and merges an idle
message into the status, keeping `lastGesture` and `chord`. -/
def runDemoTask (s : EngineState) (task : DemoTask) : EngineState × List AudioOut :=
  match task with
  | .noteEvent event =>
    match GUITAR_STRINGS.findIdx? (fun entry => decide (entry.id = event.stringId)) with
    | none => (s, [])
    | some stringIndex =>
      let stringDef := stringAt stringIndex
      let snapshot := createPitchSnapshot stringDef (event.fret : ℤ) .tap (some (event.durationMs : ℚ))
      ({ s with
          lastStringIndex := some stringIndex
          lastFret := snapshot.fret
          frettedStrings := updateFretted s.frettedStrings stringDef.id (snapshot.fret : ℤ)
          status :=
            { lastGesture := none
              message := some ("Demo note " ++ snapshot.label)
              activeString := some snapshot
              strum := none
              slide := none
              chord := none } },
        [.tone (triggerTap stringIndex (event.durationMs : ℚ) (snapshot.fret : ℤ))])
  | .completion =>
    ({ s with
        isDemoPlaying := false
        status :=
          { s.status with
            message := some "Demo complete. Try your own interactions!"
            activeString := none
            strum := none
            slide := none } },
     [])

/-! ## Helper lemmas -/

theorem clamp_le_hi (v lo hi : ℚ) : clamp v lo hi ≤ hi := min_le_left _ _

theorem lo_le_clamp (v lo hi : ℚ) (h : lo ≤ hi) : lo ≤ clamp v lo hi :=
  le_min h (le_max_left _ _)

theorem fretboardSpan_pos : (0 : ℚ) < FRETBOARD_SPAN := by
  norm_num [FRETBOARD_SPAN, FRETBOARD_START, FRETBOARD_END]

/-- Global monotonicity of the fret mapping in the normalized input. -/
theorem computeFret_mono {x1 x2 : ℚ} (h : x1 ≤ x2) :
    computeFretFromRelativeX (some x1) ≤ computeFretFromRelativeX (some x2) := by
  simp only [computeFretFromRelativeX]
  rw [if_neg (not_le.mpr fretboardSpan_pos), if_neg (not_le.mpr fretboardSpan_pos)]
  apply Int.toNat_le_toNat
  unfold clampZ
  rw [zmin_eq_min, zmin_eq_min, zmax_eq_max, zmax_eq_max]
  apply min_le_min le_rfl
  apply max_le_max le_rfl
  unfold jsRound
  apply Int.floor_le_floor
  apply add_le_add_right
  apply mul_le_mul_of_nonneg_right _ (by norm_num : (0:ℚ) ≤ (MAX_FRET : ℚ))
  unfold clamp01
  apply max_le_max le_rfl
  apply min_le_min le_rfl
  exact (div_le_div_iff_of_pos_right fretboardSpan_pos).mpr (sub_le_sub_right h _)

theorem computeFret_at_tenth : computeFretFromRelativeX (some (1/10)) = 0 := by
  norm_num [computeFretFromRelativeX, FRETBOARD_SPAN, FRETBOARD_START, FRETBOARD_END,
    clamp01, jsRound, clampZ, zmin, zmax, MAX_FRET, min_def, max_def, Int.toNat_ofNat]

theorem computeFret_at_half : computeFretFromRelativeX (some (1/2)) = 6 := by
  norm_num [computeFretFromRelativeX, FRETBOARD_SPAN, FRETBOARD_START, FRETBOARD_END,
    clamp01, jsRound, clampZ, zmin, zmax, MAX_FRET, min_def, max_def]
  decide

theorem computeFret_at_92 : computeFretFromRelativeX (some (92/100)) = 12 := by
  norm_num [computeFretFromRelativeX, FRETBOARD_SPAN, FRETBOARD_START, FRETBOARD_END,
    clamp01, jsRound, clampZ, zmin, zmax, MAX_FRET, min_def, max_def]
  decide

/-- C9: the fret mapping is monotone on the usable span, saturates to 0
below `0.1` and to 12 above `0.9`, maps `0.1 ↦ 0`, `0.5 ↦ 6`,
`0.92 ↦ 12`, and maps absent input to fret 0. -/
theorem computeFretFromRelativeX_spec :
    (∀ x1 x2 : ℚ, FRETBOARD_START ≤ x1 → x1 ≤ x2 → x2 ≤ FRETBOARD_END →
      computeFretFromRelativeX (some x1) ≤ computeFretFromRelativeX (some x2)) ∧
    (∀ x : ℚ, x < FRETBOARD_START → computeFretFromRelativeX (some x) = 0) ∧
    (∀ x : ℚ, FRETBOARD_END < x → computeFretFromRelativeX (some x) = MAX_FRET) ∧
    computeFretFromRelativeX (some (1/10)) = 0 ∧
    computeFretFromRelativeX (some (1/2)) = 6 ∧
    computeFretFromRelativeX (some (92/100)) = 12 ∧
    computeFretFromRelativeX none = 0 := by
  refine ⟨fun x1 x2 _ h _ => computeFret_mono h, ?_, ?_,
    computeFret_at_tenth, computeFret_at_half, computeFret_at_92, rfl⟩
  · intro x hx
    simp only [computeFretFromRelativeX]
    rw [if_neg (not_le.mpr fretboardSpan_pos)]
    have hneg : (x - FRETBOARD_START) / FRETBOARD_SPAN < 0 :=
      div_neg_of_neg_of_pos (sub_neg.mpr hx) fretboardSpan_pos
    have h0 : clamp01 ((x - FRETBOARD_START) / FRETBOARD_SPAN) = 0 := by
      unfold clamp01
      rw [min_eq_right (le_trans hneg.le (by norm_num)), max_eq_left hneg.le]
    rw [h0]
    norm_num [jsRound, clampZ, zmin, zmax, MAX_FRET, Int.toNat_ofNat]
  · intro x hx
    simp only [computeFretFromRelativeX]
    rw [if_neg (not_le.mpr fretboardSpan_pos)]
    have hgt : 1 < (x - FRETBOARD_START) / FRETBOARD_SPAN := by
      rw [one_lt_div fretboardSpan_pos]
      have : FRETBOARD_SPAN + FRETBOARD_START < x := by
        norm_num [FRETBOARD_SPAN, FRETBOARD_START, FRETBOARD_END] at hx ⊢
        linarith
      linarith
    have h1 : clamp01 ((x - FRETBOARD_START) / FRETBOARD_SPAN) = 1 := by
      unfold clamp01
      rw [min_eq_left hgt.le, max_eq_right (by norm_num : (0:ℚ) ≤ 1)]
    rw [h1]
    norm_num [jsRound, clampZ, zmin, zmax, MAX_FRET]
    decide

/-- C9 witness: the monotonicity and below-span parts at concrete
inputs. -/
theorem computeFretFromRelativeX_spec_witness :
    computeFretFromRelativeX (some (2/10)) ≤ computeFretFromRelativeX (some (3/10)) ∧
    computeFretFromRelativeX (some (1/20)) = 0 :=
  ⟨computeFretFromRelativeX_spec.1 (2/10) (3/10)
      (by norm_num [FRETBOARD_START]) (by norm_num) (by norm_num [FRETBOARD_END]),
    computeFretFromRelativeX_spec.2.1 (1/20) (by norm_num [FRETBOARD_START])⟩

/-- C6 counterexample: at speed 1.25 the velocity is 0.75, not the
claimed saturated value 1. -/
theorem mapSpeedToVelocity_at_claimed_saturation :
    mapSpeedToVelocity (5/4) = 3/4 ∧ mapSpeedToVelocity (5/4) ≠ 1 := by
  constructor <;> norm_num [mapSpeedToVelocity, clamp, min_def, max_def]

/-- C6: velocity is 0.25 at speed 0 (and on all of `[0, 5/12]`),
saturates to 1 exactly from speed 5/3 on, and is strictly increasing on
`[5/12, 5/3]`. -/
theorem mapSpeedToVelocity_spec :
    mapSpeedToVelocity 0 = 1/4 ∧
    (∀ speed : ℚ, 5/3 ≤ speed → mapSpeedToVelocity speed = 1) ∧
    (∀ speed : ℚ, 0 ≤ speed → speed ≤ 5/12 → mapSpeedToVelocity speed = 1/4) ∧
    (∀ a b : ℚ, 5/12 ≤ a → a < b → b ≤ 5/3 →
      mapSpeedToVelocity a < mapSpeedToVelocity b) := by
  have hval : ∀ s : ℚ, 5/12 ≤ s → s ≤ 5/3 → mapSpeedToVelocity s = s * (3/5) := by
    intro s h1 h2
    unfold mapSpeedToVelocity clamp
    rw [max_eq_right (by linarith), min_eq_right (by linarith)]
  refine ⟨by norm_num [mapSpeedToVelocity, clamp, min_def, max_def], ?_, ?_, ?_⟩
  · intro s h
    unfold mapSpeedToVelocity clamp
    rw [max_eq_right (by linarith), min_eq_left (by linarith)]
  · intro s h0 h1
    unfold mapSpeedToVelocity clamp
    rw [max_eq_left (by linarith), min_eq_right (by norm_num)]
  · intro a b ha hab hb
    rw [hval a ha (by linarith), hval b (by linarith) hb]
    linarith

/-- C6 witness: saturation at speed 2 and strict growth between 0.5 and
1. -/
theorem mapSpeedToVelocity_spec_witness :
    mapSpeedToVelocity 2 = 1 ∧ mapSpeedToVelocity (1/2) < mapSpeedToVelocity 1 :=
  ⟨mapSpeedToVelocity_spec.2.1 2 (by norm_num),
    mapSpeedToVelocity_spec.2.2.2 (1/2) 1 (by norm_num) (by norm_num) (by norm_num)⟩

/-- C8: within the tap thresholds classification yields Tap, and when
all three positive criteria fail it yields Unknown. -/
theorem handleInterpretation_spec :
    ∀ (duration : ℚ) (gestureState : PanGestureState) (event : PointerEventInfo)
      (layout : Option LayoutRectangle),
      (duration ≤ TAP_DURATION_MS → |gestureState.dx| ≤ TAP_MOVEMENT_PX →
        |gestureState.dy| ≤ TAP_MOVEMENT_PX →
        handleInterpretation duration gestureState event layout =
          .tap ⟨(event.locationX, event.locationY), duration,
            getRelativePosition event layout⟩) ∧
      (¬ (duration ≤ TAP_DURATION_MS ∧ |gestureState.dx| ≤ TAP_MOVEMENT_PX ∧
            |gestureState.dy| ≤ TAP_MOVEMENT_PX) →
        ¬ (|gestureState.dx| < |gestureState.dy| ∧ MIN_STRUM_DISTANCE ≤ |gestureState.dy|) →
        ¬ (MIN_SLIDE_DISTANCE ≤ |gestureState.dx|) →
        handleInterpretation duration gestureState event layout =
          .unknown "No matching gesture pattern detected") := by
  intro duration gestureState event layout
  constructor
  · intro h1 h2 h3
    simp only [handleInterpretation]
    rw [if_pos ⟨h1, h2, h3⟩]
  · intro h1 h2 h3
    simp only [handleInterpretation]
    rw [if_neg h1, if_neg h2, if_neg h3]

/-- C8 witness: a short, small-movement interaction classifies as Tap,
and a long diagonal one below both distance thresholds classifies as
Unknown. -/
theorem handleInterpretation_spec_witness :
    handleInterpretation 120 ⟨4, 6, 0, 0⟩ ⟨42, 128⟩ none =
      .tap ⟨(42, 128), 120, none⟩ ∧
    handleInterpretation 500 ⟨30, 20, 1/10, 1/10⟩ ⟨7, 9⟩ none =
      .unknown "No matching gesture pattern detected" := by
  constructor
  · exact (handleInterpretation_spec 120 ⟨4, 6, 0, 0⟩ ⟨42, 128⟩ none).1
      (by norm_num [TAP_DURATION_MS]) (by norm_num [TAP_MOVEMENT_PX])
      (by norm_num [TAP_MOVEMENT_PX])
  · exact (handleInterpretation_spec 500 ⟨30, 20, 1/10, 1/10⟩ ⟨7, 9⟩ none).2
      (by norm_num [TAP_DURATION_MS]) (by norm_num [MIN_STRUM_DISTANCE])
      (by norm_num [MIN_SLIDE_DISTANCE])

/-! ## Chord recognizer claims -/

theorem firstOccurrences_aux (xs : List ℕ) :
    ∀ acc : List ℕ, acc.Nodup →
      (xs.foldl (fun acc x => if x ∈ acc then acc else acc ++ [x]) acc).Nodup ∧
      (∀ a, a ∈ xs.foldl (fun acc x => if x ∈ acc then acc else acc ++ [x]) acc ↔
        (a ∈ acc ∨ a ∈ xs)) := by
  induction xs with
  | nil => intro acc hacc; simpa using hacc
  | cons x xs ih =>
    intro acc hacc
    simp only [List.foldl_cons]
    by_cases hx : x ∈ acc
    · rw [if_pos hx]
      obtain ⟨h1, h2⟩ := ih acc hacc
      refine ⟨h1, fun a => ?_⟩
      rw [h2 a]
      constructor
      · rintro (ha | ha)
        · exact Or.inl ha
        · exact Or.inr (List.mem_cons_of_mem _ ha)
      · rintro (ha | ha)
        · exact Or.inl ha
        · rcases List.mem_cons.mp ha with rfl | ha
          · exact Or.inl hx
          · exact Or.inr ha
    · rw [if_neg hx]
      have hacc' : (acc ++ [x]).Nodup := by
        simp [List.nodup_append, hacc, hx]
      obtain ⟨h1, h2⟩ := ih (acc ++ [x]) hacc'
      refine ⟨h1, fun a => ?_⟩
      rw [h2 a]
      simp only [List.mem_append, List.mem_singleton, List.mem_cons]
      tauto

theorem length_firstOccurrences (xs : List ℕ) :
    (firstOccurrences xs).length = xs.toFinset.card := by
  obtain ⟨hnd, hmem⟩ := firstOccurrences_aux xs [] List.nodup_nil
  have hnd' : (firstOccurrences xs).Nodup := hnd
  have hmem' : ∀ a, a ∈ firstOccurrences xs ↔ a ∈ xs := by
    intro a
    have h := hmem a
    simp only [List.not_mem_nil, false_or] at h
    exact h
  rw [← List.toFinset_card_of_nodup hnd']
  congr 1
  ext a
  simp only [List.mem_toFinset]
  exact hmem' a

/-- The G-major voicing of the claim (and of the repository's tests). -/
def gMajorVoicing : FrettedState := fun id =>
  match id with
  | .highE => 3 | .B => 0 | .G => 0 | .D => 0 | .A => 2 | .lowE => 3

/-- The E-minor voicing of the claim (and of the repository's tests). -/
def eMinorVoicing : FrettedState := fun id =>
  match id with
  | .highE => 0 | .B => 0 | .G => 0 | .D => 2 | .A => 2 | .lowE => 0

/-- A voicing in which all six strings sound the same pitch class. -/
def singlePitchClassVoicing : FrettedState := fun id =>
  match id with
  | .highE => 0 | .B => 5 | .G => 9 | .D => 2 | .A => 7 | .lowE => 0

/-- C3: the recognizer labels the two claimed voicings "G major" and
"E minor" with the matching qualities, and returns no chord whenever the
six sounding pitches span fewer than three distinct pitch classes. -/
theorem detectChordFromFrets_spec :
    ((detectChordFromFrets gMajorVoicing).map (fun c => (c.label, c.quality)) =
      some ("G major", ChordQuality.major)) ∧
    ((detectChordFromFrets eMinorVoicing).map (fun c => (c.label, c.quality)) =
      some ("E minor", ChordQuality.minor)) ∧
    (∀ frettedState : FrettedState,
      ((frettedMidiValues frettedState).map getPitchClass).toFinset.card < 3 →
      detectChordFromFrets frettedState = none) := by
  refine ⟨by decide, by decide, ?_⟩
  intro fs h
  have hlen : (frettedPitchClasses fs).length < 3 := by
    simp only [frettedPitchClasses]
    rw [length_firstOccurrences]
    exact h
  simp only [detectChordFromFrets]
  rw [if_pos hlen]

/-- C3 witness: a voicing collapsing to a single pitch class detects no
chord. -/
theorem detectChordFromFrets_spec_witness :
    detectChordFromFrets singlePitchClassVoicing = none :=
  detectChordFromFrets_spec.2.2 singlePitchClassVoicing (by decide)

/-! ## Synthesis dispatch claims -/

/-- C5 counterexample: sliding right from fret 11 over 240 px, the
dispatched target frequency is six unrounded semitones above the start
(exponent 40 + 11 + 6 = 57 on the low E string), while the frequency of
the clamped target fret computed for the slide (fret 12) has exponent
40 + 12 = 52. -/
theorem triggerSlide_target_mismatch :
    (triggerSlide 5 .right 240 1 11).targetFrequency ≠
      midiToFrequency (((stringAt 5).midi +
        (computeSlideTargetFret 11 .right 240 : ℤ) : ℤ) : ℚ) ∧
    computeSlideTargetFret 11 .right 240 = 12 := by
  have hsemi : mapDistanceToSlideSemitones 240 = 6 := by
    norm_num [mapDistanceToSlideSemitones, clamp, min_def, max_def]
  have htarget : computeSlideTargetFret 11 .right 240 = 12 := by
    simp only [computeSlideTargetFret, hsemi]
    norm_num [jsRound, zmax, clampZ, zmin, MAX_FRET]
    decide
  refine ⟨?_, htarget⟩
  rw [htarget]
  simp only [triggerSlide, hsemi, scaleBySemitones, midiToFrequency, stringAt]
  norm_num [clampZ, zmin, zmax, MAX_FRET, GUITAR_STRINGS, LogFreq.mk.injEq]

/-- C5 (amended): the slide tone ramps from the clamped start-fret
frequency to that frequency shifted by the unrounded semitone span
`clamp(distance/40, 1, 6)` (up for right, down for left) — not to the
clamped target fret's frequency — and its sustain is
`clamp(distance/180, 0.3, 1)`, hence always within `[0.3, 1]`. -/
theorem triggerSlide_spec :
    ∀ (stringIndex : ℕ) (direction : SlideDirection) (distance speed : ℚ) (startFret : ℤ),
      (triggerSlide stringIndex direction distance speed startFret).sustainSeconds =
        clamp (distance / 180) (3/10) 1 ∧
      3/10 ≤ (triggerSlide stringIndex direction distance speed startFret).sustainSeconds ∧
      (triggerSlide stringIndex direction distance speed startFret).sustainSeconds ≤ 1 ∧
      (triggerSlide stringIndex direction distance speed startFret).startFrequency =
        midiToFrequency (((stringAt (Nat.min stringIndex 5)).midi +
          clampZ startFret 0 (MAX_FRET : ℤ) : ℤ) : ℚ) ∧
      (triggerSlide stringIndex direction distance speed startFret).targetFrequency =
        scaleBySemitones
          (triggerSlide stringIndex direction distance speed startFret).startFrequency
          (if direction = .right then mapDistanceToSlideSemitones distance
            else -(mapDistanceToSlideSemitones distance)) ∧
      (triggerSlide stringIndex direction distance speed startFret).velocity =
        mapSpeedToVelocity speed := by
  intro stringIndex direction distance speed startFret
  refine ⟨rfl, ?_, ?_, rfl, ?_, rfl⟩
  · exact lo_le_clamp _ _ _ (by norm_num)
  · exact clamp_le_hi _ _ _
  · cases direction <;> rfl

/-- C10: strum audio is independent of the fretted state (identical for
any two engine states), and every dispatched frequency is the
open-string frequency of the corresponding string in strum order. -/
theorem triggerStrum_open_strings :
    ∀ (s1 s2 : EngineState) (g : StrumGesture),
      (captureStrum s1 g).2 = (captureStrum s2 g).2 ∧
      (captureStrum s1 g).2 = (triggerStrum g.direction g.speed).map AudioOut.tone ∧
      (triggerStrum g.direction g.speed).map (fun t => t.frequency) =
        (orderedStrumStrings g.direction).map
          (fun stringDef => midiToFrequency (stringDef.midi : ℚ)) ∧
      (triggerStrum g.direction g.speed).length = 6 := by
  intro s1 s2 g
  obtain ⟨d, distance, speed, rp⟩ := g
  refine ⟨rfl, rfl, ?_, ?_⟩
  · cases d <;> rfl
  · cases d <;> rfl

/-! ## Session engine claims -/

/-- A concrete downward strum gesture. -/
def strumDownGesture : StrumGesture := ⟨.down, 160, 6/5, none⟩

/-- An engine state whose last-touched position is string 2, fret 5. -/
def preStrumState : EngineState :=
  { initialEngineState with lastStringIndex := some 2, lastFret := 5 }

/-- C7 counterexample: a strum overwrites the last-touched position
(string index and fret), contradicting "overwritten by every Tap and
every Slide and by nothing else". -/
theorem captureStrum_overwrites_lastTouched :
    (handleGesture preStrumState (.strum strumDownGesture)).1.lastStringIndex ≠
      preStrumState.lastStringIndex ∧
    (handleGesture preStrumState (.strum strumDownGesture)).1.lastFret ≠
      preStrumState.lastFret := by
  constructor <;> decide

theorem clampZ_eq_self {v lo hi : ℤ} (h0 : lo ≤ v) (h1 : v ≤ hi) : clampZ v lo hi = v := by
  simp only [clampZ, zmin_eq_min, zmax_eq_max]
  rw [max_eq_right h0, min_eq_right h1]

theorem computeFret_le_MAX (relativeX : Option ℚ) :
    computeFretFromRelativeX relativeX ≤ MAX_FRET := by
  match relativeX with
  | none => exact Nat.zero_le _
  | some x =>
    simp only [computeFretFromRelativeX]
    split
    · exact Nat.zero_le _
    · calc (clampZ _ 0 (MAX_FRET : ℤ)).toNat ≤ ((MAX_FRET : ℤ)).toNat :=
          Int.toNat_le_toNat (by simp only [clampZ, zmin_eq_min]; exact min_le_left _ _)
        _ = MAX_FRET := rfl

theorem computeSlideTargetFret_le_MAX (startFret : ℤ) (direction : SlideDirection)
    (distance : ℚ) : computeSlideTargetFret startFret direction distance ≤ MAX_FRET := by
  simp only [computeSlideTargetFret]
  calc (clampZ _ 0 (MAX_FRET : ℤ)).toNat ≤ ((MAX_FRET : ℤ)).toNat :=
      Int.toNat_le_toNat (by simp only [clampZ, zmin_eq_min]; exact min_le_left _ _)
    _ = MAX_FRET := rfl

/-- Clamping a fret already in `[0, MAX_FRET]` is the identity, so
`createPitchSnapshot` stores such a fret unchanged. -/
theorem clampZ_toNat_of_le {n : ℕ} (hn : n ≤ MAX_FRET) :
    (clampZ (n : ℤ) 0 (MAX_FRET : ℤ)).toNat = n := by
  rw [clampZ_eq_self (Int.natCast_nonneg n) (by exact_mod_cast hn)]
  exact Int.toNat_natCast n

/-- C7 (amended): a strum overwrites the last-touched position to the
bottom string (index 5) for `down` and the top string (index 0) for
`up`, with fret 0, and leaves the fretted state unchanged; a tap
overwrites it to the tapped string index and computed fret; a slide
overwrites it to the anchor string and the computed target fret; an
unknown gesture leaves the last-touched position unchanged. -/
theorem lastTouched_update_spec :
    ∀ (s : EngineState) (g : StrumGesture) (gt : TapGesture) (gs : SlideGesture)
      (detail : String),
      (handleGesture s (.strum g)).1.lastStringIndex =
        some (if g.direction = .down then GUITAR_STRINGS.length - 1 else 0) ∧
      (handleGesture s (.strum g)).1.lastFret = 0 ∧
      (handleGesture s (.strum g)).1.frettedStrings = s.frettedStrings ∧
      (handleGesture s (.tap gt)).1.lastStringIndex =
        some (findStringIndexFromY gt.position.2) ∧
      (handleGesture s (.tap gt)).1.lastFret =
        computeFretFromRelativeX (gt.relativePosition.map (fun p => p.x)) ∧
      (handleGesture s (.slide gs)).1.lastStringIndex =
        some (s.lastStringIndex.getD (GUITAR_STRINGS.length / 2)) ∧
      (handleGesture s (.slide gs)).1.lastFret =
        computeSlideTargetFret (s.lastFret : ℤ) gs.direction gs.distance ∧
      (handleGesture s (.unknown detail)).1.lastStringIndex = s.lastStringIndex ∧
      (handleGesture s (.unknown detail)).1.lastFret = s.lastFret := by
  intro s g gt gs detail
  refine ⟨?_, ?_, ?_, ?_, ?_, ?_, ?_, ?_, ?_⟩
  · rfl
  · rfl
  · simp only [handleGesture, pushGestureToLog, captureStrum]
    split <;> simp [cancelDemo]
  · rfl
  · exact clampZ_toNat_of_le (computeFret_le_MAX _)
  · simp only [handleGesture, pushGestureToLog, captureSlide]
    split <;> rfl
  · simp only [handleGesture, pushGestureToLog, captureSlide, createPitchSnapshot]
    split <;> exact clampZ_toNat_of_le (computeSlideTargetFret_le_MAX _ _ _)
  · simp only [handleGesture, pushGestureToLog]
    split <;> simp [cancelDemo]
  · simp only [handleGesture, pushGestureToLog]
    split <;> simp [cancelDemo]

/-- The state reached by starting a demo from the initial state. -/
def demoActiveState : EngineState := playDemo initialEngineState

/-- C4: starting a demo while one is playing is a no-op; handling any
gesture from a demo-active state is the same as handling it from the
cancelled state (so the gesture is processed entirely after
cancellation); and cancellation only empties the timer set and clears
the flag, touching no other state. -/
theorem demo_cancellation_spec :
    ∀ (s : EngineState) (gesture : RecognizedGesture),
      (s.isDemoPlaying = true → playDemo s = s) ∧
      (s.isDemoPlaying = true ∨ s.pendingDemo ≠ [] →
        handleGesture s gesture = handleGesture (cancelDemo s) gesture) ∧
      (cancelDemo s).pendingDemo = [] ∧
      (cancelDemo s).isDemoPlaying = false ∧
      (cancelDemo s).status = s.status ∧
      (cancelDemo s).gestureLog = s.gestureLog ∧
      (cancelDemo s).frettedStrings = s.frettedStrings ∧
      (cancelDemo s).lastStringIndex = s.lastStringIndex ∧
      (cancelDemo s).lastFret = s.lastFret := by
  intro s gesture
  refine ⟨?_, ?_, rfl, rfl, rfl, rfl, rfl, rfl, rfl⟩
  · intro h
    simp only [playDemo, h, if_true]
  · intro h
    have hcond : (s.isDemoPlaying || decide (0 < s.pendingDemo.length)) = true := by
      rcases h with h | h
      · simp [h]
      · simp [List.length_pos.mpr h]
    simp only [handleGesture, cancelDemo, hcond]
    simp

/-- C4 witness: from a freshly started demo, re-requesting the demo is a
no-op and a live gesture is handled exactly as from the cancelled
state. -/
theorem demo_cancellation_spec_witness :
    playDemo demoActiveState = demoActiveState ∧
    handleGesture demoActiveState (.unknown "live") =
      handleGesture (cancelDemo demoActiveState) (.unknown "live") :=
  ⟨(demo_cancellation_spec demoActiveState (.unknown "live")).1 rfl,
    (demo_cancellation_spec demoActiveState (.unknown "live")).2.1 (Or.inl rfl)⟩

/-- A concrete rightward slide gesture. -/
def slideRightGesture : SlideGesture := ⟨.right, 100, 1, none⟩

/-- An engine state whose status still carries a last gesture and a
detected chord, as a strum leaves behind. -/
def staleStatusState : EngineState :=
  { initialEngineState with
      status :=
        { lastGesture := some (.unknown "stale")
          message := some "Detected G major chord"
          activeString := none
          strum := none
          slide := none
          chord := some ⟨"G", .major, ["G", "B", "D"], [0, 4, 7], "G major"⟩ } }

/-- C1 counterexample: a slide populates both `activeString` and
`slide` in the same status update, contradicting "at most one of
{activeString, strum, slide} is populated"; and the terminal
demo-completion callback merges into the previous status rather than
replacing it wholesale — it keeps the stale `lastGesture` and `chord`,
so the status it produces depends on the status it found. -/
theorem slide_status_double_population :
    ((handleGesture initialEngineState (.slide slideRightGesture)).1.status.activeString.isSome
        = true ∧
      (handleGesture initialEngineState (.slide slideRightGesture)).1.status.slide.isSome
        = true) ∧
    ((runDemoTask staleStatusState .completion).1.status.lastGesture =
        some (.unknown "stale") ∧
      (runDemoTask staleStatusState .completion).1.status.chord =
        some ⟨"G", .major, ["G", "B", "D"], [0, 4, 7], "G major"⟩ ∧
      (runDemoTask staleStatusState .completion).1.status ≠
        (runDemoTask initialEngineState .completion).1.status) := by
  refine ⟨⟨rfl, rfl⟩, rfl, rfl, ?_⟩
  decide

/-- C1 (amended): per status update, Tap populates exactly
`activeString`, Strum exactly `strum`, Slide both `activeString` and
`slide` (never `strum`), Unknown none of the three; every gesture's new
status and each demo note tick's new status are independent of the
previous status (wholesale replacement); the terminal demo-completion
callback merges instead, preserving the previous `lastGesture` and
`chord`, and it and a freshly started demo leave none of the three
populated. -/
theorem status_population_spec :
    ∀ (s : EngineState) (gesture : RecognizedGesture) (event : DemoNoteEvent),
      (match gesture with
        | .tap _ =>
          (handleGesture s gesture).1.status.activeString.isSome = true ∧
          (handleGesture s gesture).1.status.strum = none ∧
          (handleGesture s gesture).1.status.slide = none
        | .strum _ =>
          (handleGesture s gesture).1.status.strum.isSome = true ∧
          (handleGesture s gesture).1.status.activeString = none ∧
          (handleGesture s gesture).1.status.slide = none
        | .slide _ =>
          (handleGesture s gesture).1.status.activeString.isSome = true ∧
          (handleGesture s gesture).1.status.slide.isSome = true ∧
          (handleGesture s gesture).1.status.strum = none
        | .unknown _ =>
          (handleGesture s gesture).1.status.activeString = none ∧
          (handleGesture s gesture).1.status.strum = none ∧
          (handleGesture s gesture).1.status.slide = none) ∧
      (∀ σ : GuitarEngineStatus,
        (handleGesture { s with status := σ } gesture).1.status =
          (handleGesture s gesture).1.status) ∧
      ((runDemoTask s (.noteEvent event)).1.status.activeString.isSome = true ∧
        (runDemoTask s (.noteEvent event)).1.status.strum = none ∧
        (runDemoTask s (.noteEvent event)).1.status.slide = none) ∧
      (∀ σ : GuitarEngineStatus,
        (runDemoTask { s with status := σ } (.noteEvent event)).1.status =
          (runDemoTask s (.noteEvent event)).1.status) ∧
      ((runDemoTask s .completion).1.status.activeString = none ∧
        (runDemoTask s .completion).1.status.strum = none ∧
        (runDemoTask s .completion).1.status.slide = none ∧
        (runDemoTask s .completion).1.status.lastGesture = s.status.lastGesture ∧
        (runDemoTask s .completion).1.status.chord = s.status.chord) ∧
      (s.isDemoPlaying = false →
        (playDemo s).status.activeString = none ∧
        (playDemo s).status.strum = none ∧
        (playDemo s).status.slide = none) := by
  intro s gesture event
  refine ⟨?_, ?_, ?_, ?_, ⟨rfl, rfl, rfl, rfl, rfl⟩, ?_⟩
  · cases gesture <;>
      simp [handleGesture, pushGestureToLog, captureTap, captureStrum, captureSlide, cancelDemo]
  · intro σ
    cases gesture <;>
      simp [handleGesture, pushGestureToLog, cancelDemo,
        captureTap, captureStrum, captureSlide,
        apply_ite EngineState.frettedStrings, apply_ite EngineState.lastStringIndex,
        apply_ite EngineState.lastFret, apply_ite EngineState.logLimit,
        apply_ite EngineState.gestureLog]
  · obtain ⟨atMs, stringId, fret, durationMs⟩ := event
    cases stringId <;> exact ⟨rfl, rfl, rfl⟩
  · intro σ
    obtain ⟨atMs, stringId, fret, durationMs⟩ := event
    cases stringId <;> rfl
  · intro h
    simp only [playDemo, h]
    exact ⟨rfl, rfl, rfl⟩

/-- C1 witness: the per-gesture population facts and the demo-start
clearing at concrete inputs. -/
theorem status_population_spec_witness :
    (handleGesture initialEngineState (.strum strumDownGesture)).1.status.strum.isSome = true ∧
    (playDemo initialEngineState).status.strum = none :=
  ⟨((status_population_spec initialEngineState (.strum strumDownGesture)
      ⟨0, .lowE, 0, 460⟩).1).1,
    ((status_population_spec initialEngineState (.strum strumDownGesture)
      ⟨0, .lowE, 0, 460⟩).2.2.2.2.2 rfl).2.1⟩

/-! ## Demo tick versus tap -/

theorem clampZ_nonneg (v hi : ℤ) (h : 0 ≤ hi) : 0 ≤ clampZ v 0 hi := by
  simp only [clampZ, zmin_eq_min, zmax_eq_max]
  exact le_min h (le_max_left 0 v)

theorem clampZ_idem (v lo hi : ℤ) (h : lo ≤ hi) :
    clampZ (clampZ v lo hi) lo hi = clampZ v lo hi := by
  simp only [clampZ, zmin_eq_min, zmax_eq_max]
  rw [max_eq_right (le_min h (le_max_left lo v)),
    min_eq_right (min_le_left hi (Max.max lo v))]

theorem findStringIndex_at_240 : findStringIndexFromY 240 = 5 := by
  norm_num [findStringIndexFromY, STRING_TOP_OFFSET_PX, STRING_SPACING_PX,
    jsRound, clampZ, zmin, zmax]
  decide

/-- The first demo event: low E string, open, 460 ms. -/
def demoEventLowE : DemoNoteEvent := ⟨0, .lowE, 0, 460⟩

/-- A tap landing on the same string and fret as `demoEventLowE`:
y = 240 maps to string index 5 (low E) and normalized x = 0.1 maps to
fret 0, with the same 460 ms duration. -/
def tapLowEOpen : TapGesture := ⟨(100, 240), 460, some ⟨1/10, 9/10⟩⟩

/-- C2 counterexample: the demo tick leaves the gesture log untouched
while the corresponding tap appends to it, and the two status messages
differ ("Demo note E2" versus "Trigger E2"). -/
theorem demoTick_not_tap_equivalent :
    (runDemoTask initialEngineState (.noteEvent demoEventLowE)).1.gestureLog =
      initialEngineState.gestureLog ∧
    (handleGesture initialEngineState (.tap tapLowEOpen)).1.gestureLog ≠
      initialEngineState.gestureLog ∧
    (runDemoTask initialEngineState (.noteEvent demoEventLowE)).1.status.message ≠
      (handleGesture initialEngineState (.tap tapLowEOpen)).1.status.message := by
  refine ⟨rfl, ?_, ?_⟩
  · simp [handleGesture, pushGestureToLog, captureTap, initialEngineState, mkInitialState]
  · simp only [runDemoTask, handleGesture, pushGestureToLog, captureTap,
      demoEventLowE, tapLowEOpen, initialEngineState, mkInitialState,
      findStringIndex_at_240, computeFret_at_tenth]
    simp [findStringIndex_at_240, computeFret_at_tenth]
    decide

/-- C2 (amended): a demo note callback performs the same mapping and
dispatch as a Tap that lands on the same string, fret and duration —
identical updates to the fretted state, the last-touched position, the
`activeString` snapshot, and identical audio — but it does not append to
the gesture log (the tap does), it stores no `lastGesture`, and its
status message reads "Demo note …" where the tap's reads "Trigger …". -/
theorem demoTick_tap_correspondence :
    ∀ (s : EngineState) (event : DemoNoteEvent) (g : TapGesture) (i : ℕ),
      GUITAR_STRINGS.findIdx? (fun entry => decide (entry.id = event.stringId)) = some i →
      findStringIndexFromY g.position.2 = i →
      (computeFretFromRelativeX (g.relativePosition.map (fun p => p.x)) : ℤ) =
        clampZ (event.fret : ℤ) 0 (MAX_FRET : ℤ) →
      g.duration = (event.durationMs : ℚ) →
      s.isDemoPlaying = false →
      s.pendingDemo = [] →
      ((runDemoTask s (.noteEvent event)).1.frettedStrings =
          (handleGesture s (.tap g)).1.frettedStrings ∧
        (runDemoTask s (.noteEvent event)).1.lastStringIndex =
          (handleGesture s (.tap g)).1.lastStringIndex ∧
        (runDemoTask s (.noteEvent event)).1.lastFret =
          (handleGesture s (.tap g)).1.lastFret ∧
        (runDemoTask s (.noteEvent event)).1.status.activeString =
          (handleGesture s (.tap g)).1.status.activeString ∧
        (runDemoTask s (.noteEvent event)).2 = (handleGesture s (.tap g)).2) ∧
      (runDemoTask s (.noteEvent event)).1.gestureLog = s.gestureLog ∧
      (handleGesture s (.tap g)).1.gestureLog =
        (RecognizedGesture.tap g :: s.gestureLog).take s.logLimit ∧
      (runDemoTask s (.noteEvent event)).1.status.lastGesture = none ∧
      (handleGesture s (.tap g)).1.status.lastGesture = some (.tap g) ∧
      (runDemoTask s (.noteEvent event)).1.status.message =
        some ("Demo note " ++ (createPitchSnapshot (stringAt i) (event.fret : ℤ) .tap
          (some (event.durationMs : ℚ))).label) ∧
      (handleGesture s (.tap g)).1.status.message =
        some ("Trigger " ++ (createPitchSnapshot (stringAt i) (event.fret : ℤ) .tap
          (some (event.durationMs : ℚ))).label) := by
  intro s event g i hidx hy hfret hdur hflag hpend
  have hcond : (s.isDemoPlaying || decide (0 < s.pendingDemo.length)) = false := by
    simp [hflag, hpend]
  have hsnap : createPitchSnapshot (stringAt i)
      ((computeFretFromRelativeX (g.relativePosition.map (fun p => p.x)) : ℕ) : ℤ)
      .tap (some (event.durationMs : ℚ)) =
      createPitchSnapshot (stringAt i) (event.fret : ℤ) .tap (some (event.durationMs : ℚ)) := by
    rw [hfret]
    simp only [createPitchSnapshot]
    rw [clampZ_idem _ _ _ (by norm_num)]
  simp only [runDemoTask, hidx, handleGesture, hcond, Bool.false_eq_true, if_false,
    pushGestureToLog, captureTap, hy, hdur]
  simp [hsnap]

/-- C2 witness: the correspondence instantiated on the first demo event
and its matching tap. -/
theorem demoTick_tap_correspondence_witness :
    (runDemoTask initialEngineState (.noteEvent demoEventLowE)).1.status.activeString =
      (handleGesture initialEngineState (.tap tapLowEOpen)).1.status.activeString ∧
    (runDemoTask initialEngineState (.noteEvent demoEventLowE)).2 =
      (handleGesture initialEngineState (.tap tapLowEOpen)).2 :=
  ⟨((demoTick_tap_correspondence initialEngineState demoEventLowE tapLowEOpen 5
      rfl findStringIndex_at_240
      (by
        simp only [tapLowEOpen, demoEventLowE, Option.map_some', computeFret_at_tenth]
        decide)
      (by norm_num [tapLowEOpen, demoEventLowE]) rfl rfl).1).2.2.2.1,
    ((demoTick_tap_correspondence initialEngineState demoEventLowE tapLowEOpen 5
      rfl findStringIndex_at_240
      (by
        simp only [tapLowEOpen, demoEventLowE, Option.map_some', computeFret_at_tenth]
        decide)
      (by norm_num [tapLowEOpen, demoEventLowE]) rfl rfl).1).2.2.2.2⟩
